import Mathlib

/-!
Shallow embedding of `pysit2stand/processing.py` (package `pysit2stand`):
the acceleration filtering/reconstruction pipeline (`AccFilter`) and the
timestamp normalization routine (`process_timestamps`), together with
theorems settling the specification claims about them.

Real-valued signals are modelled as lists of rationals.  External library
primitives (scipy `filtfilt`, numpy `norm`, pywt `wavedec`/`waverec`, and the
repository utility `mov_stats`, which is not part of the sources being
verified) are abstracted as parameters of the embedding; the facts the
theorems need about them (e.g. `filtfilt` preserves length) appear as
explicit hypotheses mirroring the documented library contracts.
-/

/-- Python exceptions raised (directly or by library calls) in
`processing.py`.  The spec calls the configuration-related ones
`ConfigurationError`; in the code they are `ValueError`s.  `nameError`
models the `NameError` that referencing the unbound `macc_r` would raise
on the unreachable branch of `apply`. -/
inductive PyError
  | valueError (msg : String)
  | nameError
deriving DecidableEq

/-- A diagnostic warning emitted by `apply` (the source uses `print`).
`reconLevelTooHigh n` models the message
"Chosen reconstruction level is too high, setting reconstruction level to n"
printed at processing.py line 93 (`n` is `len(coefs) - 1`). -/
inductive Warning
  | reconLevelTooHigh (newLevel : ℤ)
deriving DecidableEq

/-- The `AccFilter` object: configuration fields stored by `__init__`
(processing.py lines 44-58).  Numeric parameters are modelled as exact
rationals / integers. -/
structure AccFilter where
  method : String
  lp_ord : ℕ
  lp_cut : ℚ
  window : ℚ
  dwave : String
  ext_mode : String
  recon_level : ℤ
deriving DecidableEq

/-- Error message of `AccFilter.__init__` (processing.py line 49). -/
def reconMethodMsg : String :=
  "reconstruction_method is not recognized. Options are ..moving average.. or ..dwt.."

/-- `AccFilter.__init__` (processing.py lines 44-58): accepts exactly the
reconstruction methods "moving average" and "dwt", raising `ValueError`
otherwise, and stores every other field verbatim. -/
def AccFilter.init (reconstruction_method : String) (lowpass_order : ℕ)
    (lowpass_cutoff : ℚ) (window : ℚ) (discrete_wavelet : String)
    (extension_mode : String) (reconstruction_level : ℤ) :
    Except PyError AccFilter :=
  if reconstruction_method = "moving average" ∨ reconstruction_method = "dwt" then
    Except.ok ⟨reconstruction_method, lowpass_order, lowpass_cutoff, window,
      discrete_wavelet, extension_mode, reconstruction_level⟩
  else
    Except.error (PyError.valueError reconMethodMsg)

/-- Error message scipy raises for an invalid digital cutoff. -/
def butterMsg : String := "Digital filter critical frequencies must be 0 < Wn < 1"

/-- Models the external `scipy.signal.butter` contract for a digital
low-pass design (processing.py line 84): the call succeeds iff the
normalized cutoff `wn` satisfies `0 < wn < 1`, and otherwise raises a
`ValueError`.  The coefficient values themselves are never inspected by
the code under verification, so a fixed placeholder pair is returned. -/
def butter (ord : ℕ) (wn : ℚ) : Except PyError (List ℚ × List ℚ) :=
  if 0 < wn ∧ wn < 1 then
    Except.ok (List.replicate (ord + 1) 1, List.replicate (ord + 1) 1)
  else
    Except.error (PyError.valueError butterMsg)

/-- External primitives used by `AccFilter.apply`, abstracted as
parameters: `norm3` is `numpy.linalg.norm(., axis=1)` applied to one
3-vector; `filtfilt` is `scipy.signal.filtfilt`; `wavedec`/`waverec` are
`pywt.wavedec`/`pywt.waverec` (wavelet name and extension mode first);
`mov_stats` is `pysit2stand.utility.mov_stats`, repository code that is
not among the sources here, whose contract (spec section 6) is
`moving_average(signal, window_length_samples) -> (averaged_signal, _, _)`. -/
structure Externals where
  norm3 : ℚ × ℚ × ℚ → ℚ
  filtfilt : List ℚ × List ℚ → List ℚ → List ℚ
  wavedec : String → String → List ℚ → List (List ℚ)
  waverec : String → String → List (List ℚ) → List ℚ
  mov_stats : List ℚ → ℤ → List ℚ × List ℚ × List ℚ

/-- `numpy.around` on a rational: round half to even (banker's rounding),
used for the moving-average window length (processing.py line 104). -/
def around (x : ℚ) : ℤ :=
  let f := ⌊x⌋
  let r := x - f
  if r < 1/2 then f
  else if 1/2 < r then f + 1
  else if f % 2 = 0 then f else f + 1

/-- The retained-coefficient index of the DWT branch (processing.py lines
92-96): `ind = len(coefs) - recon_level`, except that when that value is
below 1 the code prints a diagnostic and uses `ind = 1`.  Returns the
index together with the emitted warnings. -/
def dwtIndex (ncoefs : ℕ) (recon_level : ℤ) : ℤ × List Warning :=
  if (ncoefs : ℤ) - recon_level < 1 then
    (1, [Warning.reconLevelTooHigh ((ncoefs : ℤ) - 1)])
  else
    ((ncoefs : ℤ) - recon_level, [])

/-- Helper for `zeroDetail`: the loop of processing.py lines 98-100
carrying the running index `i`.  Position `i = 0` (the approximation
band) is outside the loop range and kept; any detail band at `i ≠ ind`
is overwritten in place with zeros (`coefs[i][:] = 0`). -/
def zeroFrom (ind : ℤ) (i : ℕ) : List (List ℚ) → List (List ℚ)
  | [] => []
  | c :: rest =>
      (if i = 0 then c
       else if (i : ℤ) = ind then c
       else List.replicate c.length 0) :: zeroFrom ind (i + 1) rest

/-- The coefficient-zeroing loop of the DWT branch (processing.py lines
98-100): `for i in range(1, len(coefs)): if i != ind: coefs[i][:] = 0`. -/
def zeroDetail (coefs : List (List ℚ)) (ind : ℤ) : List (List ℚ) :=
  zeroFrom ind 0 coefs

/-- `AccFilter.apply` (processing.py lines 60-107): computes the
acceleration magnitude, low-pass filters it, branches on the
reconstruction method, and returns the filtered magnitude together with
the reconstruction truncated to `macc_f.size`.  The result also carries
the warnings printed along the way.  A `method` outside the two
recognized strings leaves `macc_r` unbound in the source, so the final
`return` raises `NameError`. -/
def AccFilter.apply (ext : Externals) (self : AccFilter)
    (accel : List (ℚ × ℚ × ℚ)) (fs : ℚ) :
    Except PyError ((List ℚ × List ℚ) × List Warning) :=
  let macc := accel.map ext.norm3
  match butter self.lp_ord (2 * self.lp_cut / fs) with
  | Except.error e => Except.error e
  | Except.ok fc =>
    let macc_f := ext.filtfilt fc macc
    if self.method = "dwt" then
      let coefs := ext.wavedec self.dwave self.ext_mode macc_f
      let iw := dwtIndex coefs.length self.recon_level
      let coefs2 := zeroDetail coefs iw.1
      let macc_r := ext.waverec self.dwave self.ext_mode coefs2
      Except.ok ((macc_f, macc_r.take macc_f.length), iw.2)
    else if self.method = "moving average" then
      let n_window := around (fs * self.window)
      let macc_r := (ext.mov_stats macc_f n_window).1
      Except.ok ((macc_f, macc_r.take macc_f.length), [])
    else
      Except.error PyError.nameError

/-- A Python `dict` restricted to the string-valued keys `processing.py`
actually touches, modelled as an ordered association list. -/
abbrev Dict := List (String × String)

/-- `d[k]` lookup on the dict model: first binding of `k`, if any. -/
def dictGet (d : Dict) (k : String) : Option String :=
  match d with
  | [] => none
  | (k1, v) :: rest => if k1 = k then some v else dictGet rest k

/-- `d[k] = v` assignment on the dict model: replaces the first binding
of `k` in place, appending a fresh binding when the key is absent. -/
def dictSet (d : Dict) (k v : String) : Dict :=
  match d with
  | [] => [(k, v)]
  | (k1, v1) :: rest => if k1 = k then (k, v) :: rest else (k1, v1) :: dictSet rest k v

/-- Error message of the parsing-spec check (processing.py line 154). -/
def timeSpecMsg : String :=
  "Either (time_units) must be defined, or ..unit.. must be a key of (conv_kw)."

/-- The parsing-spec resolution of `process_timestamps` (processing.py
lines 147-154): with a `conv_kw` dict present, an explicit `time_units`
overwrites its unit entry; with no dict, an explicit unit builds a fresh
one-entry dict; with neither, a `ValueError` is raised. -/
def resolveKw (time_units : Option String) (conv_kw : Option Dict) :
    Except PyError Dict :=
  match conv_kw with
  | some kw =>
    match time_units with
    | some u => Except.ok (dictSet kw "unit" u)
    | none => Except.ok kw
  | none =>
    match time_units with
    | some u => Except.ok [("unit", u)]
    | none => Except.error (PyError.valueError timeSpecMsg)

/-- State of the caller's `conv_kw` object after `process_timestamps`
returns (processing.py lines 147-154): Python dicts are aliased, so the
in-place assignment `conv_kw['unit'] = time_units` on line 149 is
visible to the caller.  When `conv_kw` is `None` the fresh dict built on
line 152 is local and nothing of the caller changes. -/
def conv_kw_after (time_units : Option String) (conv_kw : Option Dict) :
    Option Dict :=
  match conv_kw with
  | some kw =>
    match time_units with
    | some u => some (dictSet kw "unit" u)
    | none => some kw
  | none => none

/-- Scale factor from a pandas epoch unit to seconds. -/
def unitFactor (u : String) : ℚ :=
  if u = "s" then 1
  else if u = "ms" then 1/1000
  else if u = "us" then 1/1000000
  else if u = "ns" then 1/1000000000
  else 0

/-- Models `pandas.to_datetime(times, **conv_kw)` (processing.py line
157) on numeric epoch input: each raw value is interpreted in the dict's
unit entry (pandas defaults to nanoseconds) and the resulting absolute
time point is represented as seconds since the epoch. -/
def to_datetime (times : List ℚ) (conv_kw : Dict) : List ℚ :=
  let u := (dictGet conv_kw "unit").getD "ns"
  times.map (fun t => t * unitFactor u)

/-- Successive differences, `numpy.diff`. -/
def diffs : List ℚ → List ℚ
  | a :: b :: rest => (b - a) :: diffs (b :: rest)
  | _ => []

/-- Arithmetic mean, `numpy.mean` (0 on the empty list, where the Python
result would be NaN). -/
def mean (xs : List ℚ) : ℚ := xs.sum / xs.length

/-- Clock time (seconds of day) of an absolute time point given in
seconds since the midnight-aligned epoch. -/
def secondsOfDay (t : ℚ) : ℚ := t - 86400 * ⌊t / 86400⌋

/-- Seconds of day denoted by the clock string "HH:MM". -/
def hm (h m : ℕ) : ℚ := 3600 * h + 60 * m

/-- Models `DatetimeIndex.indexer_between_time(start, end)` (processing.py
line 164) with the pandas defaults `include_start=True, include_end=True`:
the indices whose clock time lies in the CLOSED interval `[s, e]` (when
`s ≤ e`; when `s > e` pandas wraps past midnight).  `s` and `e` are the
seconds-of-day values of the "HH:MM" bound strings. -/
def indexer_between_time (ts : List ℚ) (s e : ℚ) : List ℕ :=
  (List.range ts.length).filter (fun i =>
    let tod := secondsOfDay (ts.getD i 0)
    if s ≤ e then decide (s ≤ tod) && decide (tod ≤ e)
    else decide (s ≤ tod) || decide (tod ≤ e))

/-- The selection rule in the words of the spec (sections 4.2 and 8),
for comparison with `indexer_between_time`: indices whose clock time
lies in the HALF-OPEN interval `[start, end)` - start inclusive, end
exclusive. -/
def specWindowHalfOpen (ts : List ℚ) (s e : ℚ) : List ℕ :=
  (List.range ts.length).filter (fun i =>
    let tod := secondsOfDay (ts.getD i 0)
    decide (s ≤ tod) && decide (tod < e))

/-- Result of `process_timestamps`: a 3-tuple with the windowed
acceleration when `window` is true (processing.py line 169), and a
2-tuple without any acceleration otherwise (line 171). -/
inductive PTResult (α : Type)
  | windowed (timestamps : List ℚ) (dt : ℚ) (accel : List α)
  | plain (timestamps : List ℚ) (dt : ℚ)
deriving DecidableEq

/-- Whether a `process_timestamps` result carries an acceleration
component. -/
def PTResult.returnsAccel {α : Type} : PTResult α → Bool
  | PTResult.windowed _ _ _ => true
  | PTResult.plain _ _ => false

/-- `process_timestamps` (processing.py lines 110-171): resolves the
parsing spec, parses the timestamps, computes the mean sampling interval
in seconds over the full parsed sequence, and, when `window` is true,
restricts both the timestamps and the co-indexed acceleration to the
indices selected by `indexer_between_time`.  The clock bounds `hours`
are given as seconds-of-day values of the "HH:MM" strings. -/
def process_timestamps {α : Type} (times : List ℚ) (accel : List α)
    (time_units : Option String) (conv_kw : Option Dict)
    (window : Bool) (hours : ℚ × ℚ) : Except PyError (PTResult α) :=
  match resolveKw time_units conv_kw with
  | Except.error e => Except.error e
  | Except.ok kw =>
    let timestamps := to_datetime times kw
    let dt := mean (diffs timestamps)
    if window then
      let hour_inds := indexer_between_time timestamps hours.1 hours.2
      Except.ok (PTResult.windowed (hour_inds.map (fun i => timestamps.getD i 0)) dt
        (hour_inds.filterMap (fun i => accel[i]?)))
    else
      Except.ok (PTResult.plain timestamps dt)

/-- The coefficient list computed in the DWT branch of `apply` once the
filter design has succeeded (the `butter` model then returns its
placeholder coefficient pair). -/
def applyCoefs (ext : Externals) (self : AccFilter)
    (accel : List (ℚ × ℚ × ℚ)) : List (List ℚ) :=
  ext.wavedec self.dwave self.ext_mode
    (ext.filtfilt (List.replicate (self.lp_ord + 1) 1, List.replicate (self.lp_ord + 1) 1)
      (accel.map ext.norm3))

/-- Concrete external primitives used by the witnesses: a constant
magnitude, an identity filter, a one-band decomposition, a fixed-length
reconstruction and an identity moving average. -/
def extW : Externals :=
  ⟨fun _ => 1, fun _ sig => sig, fun _ _ sig => [sig],
    fun _ _ _ => List.replicate 8 0, fun sig _ => (sig, sig, sig)⟩

/-- A concrete DWT configuration whose reconstruction level 10 exceeds
the one-band depth produced by `extW`. -/
def dwtW : AccFilter := ⟨"dwt", 4, 1, 1/4, "dmey", "constant", 10⟩

/-- Equality of `Except` values is decidable when it is on both sides. -/
instance {ε α : Type} [DecidableEq ε] [DecidableEq α] : DecidableEq (Except ε α) := fun a b =>
  match a, b with
  | Except.ok a, Except.ok b =>
      if h : a = b then isTrue (congrArg Except.ok h)
      else isFalse (fun he => h (Except.ok.inj he))
  | Except.error a, Except.error b =>
      if h : a = b then isTrue (congrArg Except.error h)
      else isFalse (fun he => h (Except.error.inj he))
  | Except.ok _, Except.error _ => isFalse (fun he => Except.noConfusion he)
  | Except.error _, Except.ok _ => isFalse (fun he => Except.noConfusion he)

/-- The sampling-interval component of a `process_timestamps` result. -/
def PTResult.dt {α : Type} : PTResult α → ℚ
  | PTResult.windowed _ dt _ => dt
  | PTResult.plain _ dt => dt

/-- C4: constructing an `AccFilter` fails with the configuration error iff
the reconstruction method is not one of "moving average" and "dwt"; for a
recognized method construction succeeds and every other configuration
field is stored verbatim, unvalidated. -/
theorem init_validation (m : String) (lo : ℕ) (lc w : ℚ) (dw em : String) (rl : ℤ) :
    (AccFilter.init m lo lc w dw em rl = Except.error (PyError.valueError reconMethodMsg)
        ↔ ¬ (m = "moving average" ∨ m = "dwt")) ∧
    ((m = "moving average" ∨ m = "dwt") →
      AccFilter.init m lo lc w dw em rl = Except.ok ⟨m, lo, lc, w, dw, em, rl⟩) := by
  by_cases h : m = "moving average" ∨ m = "dwt" <;>
    simp [AccFilter.init, h]

/-- Witness for C4 at a concrete recognized method. -/
theorem init_validation_witness :
    AccFilter.init "dwt" 4 5 (1/4) "dmey" "constant" 1
      = Except.ok ⟨"dwt", 4, 5, 1/4, "dmey", "constant", 1⟩ :=
  (init_validation "dwt" 4 5 (1/4) "dmey" "constant" 1).2 (Or.inr rfl)

/-- C5: with a positive configured cutoff, `apply` fails with the filter
design error whenever the sampling rate is non-positive or the cutoff is
at least the Nyquist frequency `fs / 2`. -/
theorem apply_invalid_rate (ext : Externals) (self : AccFilter)
    (accel : List (ℚ × ℚ × ℚ)) (fs : ℚ) (hcut : 0 < self.lp_cut)
    (h : fs ≤ 0 ∨ fs / 2 ≤ self.lp_cut) :
    AccFilter.apply ext self accel fs = Except.error (PyError.valueError butterMsg) := by
  have hnn : ¬ (0 < 2 * self.lp_cut / fs ∧ 2 * self.lp_cut / fs < 1) := by
    rcases le_or_lt fs 0 with hfs | hfs
    · rcases eq_or_lt_of_le hfs with heq | hlt
      · rintro ⟨h1, -⟩
        rw [heq, div_zero] at h1
        exact lt_irrefl 0 h1
      · rintro ⟨h1, -⟩
        have : 2 * self.lp_cut / fs < 0 := div_neg_of_pos_of_neg (by linarith) hlt
        linarith
    · have h2 : fs ≤ 2 * self.lp_cut := by
        rcases h with h0 | hc
        · linarith
        · linarith
      have h1 : 1 ≤ 2 * self.lp_cut / fs := (one_le_div hfs).mpr h2
      rintro ⟨-, hlt1⟩
      linarith
  simp [AccFilter.apply, butter, hnn]

/-- Witness for C5: cutoff 5 Hz at sampling rate 4 Hz is at or above
Nyquist, so `apply` fails. -/
theorem apply_invalid_rate_witness :
    AccFilter.apply
        ⟨fun _ => 1, fun _ sig => sig, fun _ _ sig => [sig],
          fun _ _ _ => List.replicate 8 0, fun sig _ => (sig, sig, sig)⟩
        ⟨"moving average", 4, 5, 1/4, "dmey", "constant", 1⟩
        [(1, 0, 0)] 4
      = Except.error (PyError.valueError butterMsg) :=
  apply_invalid_rate _ _ _ _ (by norm_num) (Or.inr (by norm_num))

/-- Unrolling lemma for the zeroing loop: the entry at position `i` of
`zeroFrom ind k cs` is kept when its absolute index `k + i` is 0 or
equals `ind`, and is an all-zero list of the original length otherwise. -/
theorem zeroFrom_getD (ind : ℤ) (k : ℕ) (cs : List (List ℚ)) (i : ℕ)
    (hi : i < cs.length) :
    (zeroFrom ind k cs).getD i [] =
      if k + i = 0 then cs.getD i []
      else if ((k + i : ℕ) : ℤ) = ind then cs.getD i []
      else List.replicate (cs.getD i []).length 0 := by
  induction cs generalizing k i with
  | nil => simp at hi
  | cons c rest ih =>
    cases i with
    | zero => simp [zeroFrom]
    | succ n =>
      have hn : n < rest.length := by simpa using hi
      have hk : k + 1 + n = k + (n + 1) := by omega
      simp only [zeroFrom, List.getD_cons_succ]
      rw [ih (k + 1) n hn, hk]

/-- Witness for `zeroFrom_getD` at a concrete coefficient list. -/
theorem zeroFrom_getD_witness :
    (zeroFrom 2 0 [[(1:ℚ)], [2], [3]]).getD 1 [] = List.replicate 1 0 :=
  by rw [zeroFrom_getD 2 0 [[(1:ℚ)], [2], [3]] 1 (by norm_num)]; norm_num

/-- C2: in the DWT branch, when the configured level leaves
`len(coefs) - recon_level` at least 1, that value is the retained index
(no warning is printed), the approximation band at index 0 is kept, and
among the detail bands exactly the one at the retained index survives -
every other one becomes all zeros of its original length. -/
theorem dwt_zeroing (coefs : List (List ℚ)) (rl : ℤ)
    (h : 1 ≤ (coefs.length : ℤ) - rl) :
    (dwtIndex coefs.length rl).1 = (coefs.length : ℤ) - rl ∧
    (dwtIndex coefs.length rl).2 = [] ∧
    (zeroDetail coefs ((coefs.length : ℤ) - rl)).getD 0 [] = coefs.getD 0 [] ∧
    (∀ i, 1 ≤ i → i < coefs.length →
      ((i : ℤ) ≠ (coefs.length : ℤ) - rl →
        (zeroDetail coefs ((coefs.length : ℤ) - rl)).getD i []
          = List.replicate (coefs.getD i []).length 0) ∧
      ((i : ℤ) = (coefs.length : ℤ) - rl →
        (zeroDetail coefs ((coefs.length : ℤ) - rl)).getD i [] = coefs.getD i [])) := by
  have hnot : ¬ ((coefs.length : ℤ) - rl < 1) := by omega
  refine ⟨by simp [dwtIndex, hnot], by simp [dwtIndex, hnot], ?_, ?_⟩
  · cases coefs with
    | nil => simp [zeroDetail, zeroFrom]
    | cons c rest => simp [zeroDetail, zeroFrom]
  · intro i h1 hlen
    have hz : ¬ (0 + i = 0) := by omega
    constructor
    · intro hne
      rw [zeroDetail, zeroFrom_getD _ 0 _ _ hlen]
      simp only [Nat.zero_add] at hz ⊢
      rw [if_neg (by omega), if_neg hne]
    · intro heq
      rw [zeroDetail, zeroFrom_getD _ 0 _ _ hlen]
      simp only [Nat.zero_add]
      rw [if_neg (by omega), if_pos heq]

/-- Witness for C2: three coefficient sets, reconstruction level 1 keeps
detail band 2 and zeroes detail band 1. -/
theorem dwt_zeroing_witness :
    (dwtIndex 3 1).1 = 2 ∧
    (zeroDetail [[(5:ℚ)], [6], [7]] 2).getD 0 [] = [(5:ℚ)] ∧
    (zeroDetail [[(5:ℚ)], [6], [7]] 2).getD 1 [] = [(0:ℚ)] ∧
    (zeroDetail [[(5:ℚ)], [6], [7]] 2).getD 2 [] = [(7:ℚ)] := by
  have h := dwt_zeroing [[(5:ℚ)], [6], [7]] 1 (by norm_num)
  refine ⟨by simpa using h.1, by simpa using h.2.2.1, ?_, ?_⟩
  · have h1 := (h.2.2.2 1 (by norm_num) (by norm_num)).1 (by norm_num)
    simpa using h1
  · have h2 := (h.2.2.2 2 (by norm_num) (by norm_num)).2 (by norm_num)
    simpa using h2

/-- C3: in the DWT branch, when the configured reconstruction level
exceeds the available depth (`len(coefs) - recon_level < 1`), `apply`
does not raise: the index is clamped to 1, the diagnostic warning is
emitted, and reconstruction proceeds, returning normally. -/
theorem dwt_level_clamp (ext : Externals) (self : AccFilter)
    (accel : List (ℚ × ℚ × ℚ)) (fs : ℚ)
    (hmeth : self.method = "dwt")
    (hwn : 0 < 2 * self.lp_cut / fs ∧ 2 * self.lp_cut / fs < 1)
    (hlow : ((applyCoefs ext self accel).length : ℤ) - self.recon_level < 1) :
    dwtIndex (applyCoefs ext self accel).length self.recon_level
        = (1, [Warning.reconLevelTooHigh (((applyCoefs ext self accel).length : ℤ) - 1)]) ∧
    AccFilter.apply ext self accel fs
      = Except.ok
          ((ext.filtfilt (List.replicate (self.lp_ord + 1) 1, List.replicate (self.lp_ord + 1) 1)
              (accel.map ext.norm3),
            (ext.waverec self.dwave self.ext_mode
                (zeroDetail (applyCoefs ext self accel) 1)).take
              (ext.filtfilt (List.replicate (self.lp_ord + 1) 1, List.replicate (self.lp_ord + 1) 1)
                (accel.map ext.norm3)).length),
            [Warning.reconLevelTooHigh (((applyCoefs ext self accel).length : ℤ) - 1)]) := by
  have hlow1 : ((ext.wavedec self.dwave self.ext_mode
      (ext.filtfilt (List.replicate (self.lp_ord + 1) 1, List.replicate (self.lp_ord + 1) 1)
        (accel.map ext.norm3))).length : ℤ) - self.recon_level < 1 := by
    simpa [applyCoefs] using hlow
  constructor
  · simp [dwtIndex, hlow]
  · simp [AccFilter.apply, butter, if_pos hwn, hmeth, dwtIndex, applyCoefs, hlow1]

/-- Witness for C3 at a one-sample input. -/
theorem dwt_level_clamp_witness :
    dwtIndex 1 10 = (1, [Warning.reconLevelTooHigh 0]) ∧
    AccFilter.apply extW dwtW [(1, 0, 0)] 4
      = Except.ok (([(1:ℚ)], [(0:ℚ)]), [Warning.reconLevelTooHigh 0]) := by
  have h := dwt_level_clamp extW dwtW [(1, 0, 0)] 4 rfl (by norm_num [dwtW]) (by decide)
  exact ⟨h.1.trans (by decide), h.2.trans (by decide)⟩

/-- C1: whenever `apply` returns (for either reconstruction path), both
returned sequences have length exactly N, the length of the input - the
reconstruction is truncated to the length of the filtered magnitude.
The hypotheses are the documented contracts of the external primitives:
`filtfilt` preserves length, and both reconstruction primitives return
at least N samples. -/
theorem apply_length (ext : Externals) (self : AccFilter)
    (accel : List (ℚ × ℚ × ℚ)) (fs : ℚ)
    (hff : ∀ fc sig, (ext.filtfilt fc sig).length = sig.length)
    (hwr : ∀ dw em cs, accel.length ≤ (ext.waverec dw em cs).length)
    (hms : ∀ sig n, sig.length ≤ (ext.mov_stats sig n).1.length)
    (out : (List ℚ × List ℚ) × List Warning)
    (hok : AccFilter.apply ext self accel fs = Except.ok out) :
    out.1.1.length = accel.length ∧ out.1.2.length = accel.length := by
  unfold AccFilter.apply at hok
  cases hbe : butter self.lp_ord (2 * self.lp_cut / fs) with
  | error e => rw [hbe] at hok; exact absurd hok (by simp)
  | ok fc =>
    simp only [hbe] at hok
    by_cases hd : self.method = "dwt"
    · rw [if_pos hd] at hok
      simp only [Except.ok.injEq] at hok
      subst hok
      refine ⟨by simp [hff], ?_⟩
      simp only [List.length_take, hff, List.length_map]
      have h1 := hwr self.dwave self.ext_mode
        (zeroDetail (ext.wavedec self.dwave self.ext_mode (ext.filtfilt fc (List.map ext.norm3 accel)))
          (dwtIndex
            (ext.wavedec self.dwave self.ext_mode (ext.filtfilt fc (List.map ext.norm3 accel))).length
            self.recon_level).1)
      omega
    · rw [if_neg hd] at hok
      by_cases hma : self.method = "moving average"
      · rw [if_pos hma] at hok
        simp only [Except.ok.injEq] at hok
        subst hok
        refine ⟨by simp [hff], ?_⟩
        simp only [List.length_take, hff, List.length_map]
        have h1 := hms (ext.filtfilt fc (List.map ext.norm3 accel)) (around (fs * self.window))
        have h2 := hff fc (List.map ext.norm3 accel)
        simp only [List.length_map] at h2
        omega
      · rw [if_neg hma] at hok
        exact absurd hok (by simp)

/-- Witness for C1 on a two-sample input through the moving-average
path. -/
theorem apply_length_witness :
    (([(1:ℚ), 1], [(1:ℚ), 1]), ([] : List Warning)).1.1.length
        = [((1:ℚ), (0:ℚ), (0:ℚ)), (2, 0, 0)].length ∧
    (([(1:ℚ), 1], [(1:ℚ), 1]), ([] : List Warning)).1.2.length
        = [((1:ℚ), (0:ℚ), (0:ℚ)), (2, 0, 0)].length :=
  apply_length extW ⟨"moving average", 4, 1, 1/4, "dmey", "constant", 1⟩
    [(1, 0, 0), (2, 0, 0)] 4 (fun _ _ => rfl) (fun _ _ _ => by norm_num [extW])
    (fun _ _ => le_refl _) (([(1:ℚ), 1], [(1:ℚ), 1]), [])
    (by norm_num [AccFilter.apply, butter, extW, around]
        intro h
        simp at h)

/-- Assigning a key stores its value: the first binding of `k` after
`dictSet d k v` is `v`. -/
theorem dictGet_dictSet (d : Dict) (k v : String) :
    dictGet (dictSet d k v) k = some v := by
  induction d with
  | nil => simp [dictSet, dictGet]
  | cons p rest ih =>
    obtain ⟨k1, v1⟩ := p
    by_cases h : k1 = k
    · simp [dictSet, dictGet, h]
    · simp [dictSet, dictGet, h, ih]

/-- Witness for `dictGet_dictSet` on a one-entry dict. -/
theorem dictGet_dictSet_witness :
    dictGet (dictSet [("unit", "ns")] "unit" "s") "unit" = some "s" :=
  dictGet_dictSet [("unit", "ns")] "unit" "s"

/-- A time point within the epoch day is its own clock time. -/
theorem secondsOfDay_small (t : ℚ) (h0 : 0 ≤ t) (h1 : t < 86400) :
    secondsOfDay t = t := by
  have hf : ⌊t / 86400⌋ = 0 := by
    rw [Int.floor_eq_zero_iff]
    refine ⟨div_nonneg h0 (by norm_num), ?_⟩
    rw [div_lt_one (by norm_num)]
    exact h1
  simp [secondsOfDay, hf]

/-- Witness for `secondsOfDay_small`. -/
theorem secondsOfDay_small_witness : secondsOfDay 72000 = 72000 :=
  secondsOfDay_small 72000 (by norm_num) (by norm_num)

/-- C8: `process_timestamps` fails with the configuration error iff both
`time_units` and `conv_kw` are `None`; with at least one supplied the
parsing-spec check passes and the call returns normally, and when both
are supplied the explicit unit overwrites the unit entry of the parsing
configuration. -/
theorem timespec_validation {α : Type} (times : List ℚ) (accel : List α)
    (w : Bool) (hrs : ℚ × ℚ) (tu : Option String) (kw : Option Dict) :
    ((∃ e, process_timestamps times accel tu kw w hrs = Except.error e)
        ↔ (tu = none ∧ kw = none)) ∧
    (process_timestamps times accel none none w hrs
        = Except.error (PyError.valueError timeSpecMsg)) ∧
    (∀ u k, resolveKw (some u) (some k) = Except.ok (dictSet k "unit" u) ∧
        dictGet (dictSet k "unit" u) "unit" = some u) := by
  refine ⟨⟨?_, ?_⟩, ?_, ?_⟩
  · rintro ⟨e, he⟩
    rcases tu with _ | u
    · rcases kw with _ | k
      · exact ⟨rfl, rfl⟩
      · exfalso; revert he; cases w <;> simp [process_timestamps, resolveKw]
    · exfalso
      rcases kw with _ | k <;> revert he <;> cases w <;>
        simp [process_timestamps, resolveKw]
  · rintro ⟨rfl, rfl⟩
    exact ⟨PyError.valueError timeSpecMsg, by simp [process_timestamps, resolveKw]⟩
  · simp [process_timestamps, resolveKw]
  · intro u k
    exact ⟨rfl, dictGet_dictSet k "unit" u⟩

/-- Witness for C8: neither a unit nor a configuration supplied. -/
theorem timespec_validation_witness :
    process_timestamps [(0:ℚ)] [(0:ℚ)] none none false (0, 0)
      = Except.error (PyError.valueError timeSpecMsg) :=
  (timespec_validation [(0:ℚ)] [(0:ℚ)] false (0, 0) none none).2.1

/-- C7: with windowing on, the sampling interval in the result is the
mean of successive differences (in seconds) of the FULL parsed sequence,
computed before any time-of-day filtering. -/
theorem dt_unwindowed {α : Type} (times : List ℚ) (accel : List α)
    (tu : Option String) (kw : Option Dict) (hrs : ℚ × ℚ) (d : Dict)
    (hd : resolveKw tu kw = Except.ok d) (res : PTResult α)
    (hres : process_timestamps times accel tu kw true hrs = Except.ok res) :
    res.dt = mean (diffs (to_datetime times d)) := by
  revert hres
  simp only [process_timestamps, hd, if_pos, Except.ok.injEq]
  intro h
  subst h
  rfl

/-- C9 amended: with `window=False`, `process_timestamps` returns only
the parsed timestamps and the sampling interval - no acceleration is
returned, and the result does not depend on the acceleration at all. -/
theorem window_false_plain {α : Type} (times : List ℚ) (accel : List α)
    (tu : Option String) (kw : Option Dict) (hrs : ℚ × ℚ) (d : Dict)
    (hd : resolveKw tu kw = Except.ok d) :
    process_timestamps times accel tu kw false hrs
      = Except.ok (PTResult.plain (to_datetime times d)
          (mean (diffs (to_datetime times d)))) ∧
    ∀ accel2 : List α, process_timestamps times accel2 tu kw false hrs
      = process_timestamps times accel tu kw false hrs := by
  constructor
  · simp [process_timestamps, hd]
  · intro accel2
    simp [process_timestamps, hd]

/-- Witness for the amended C9. -/
theorem window_false_plain_witness :
    process_timestamps [(0:ℚ)] [(1:ℚ)] (some "s") none false (0, 0)
      = Except.ok (PTResult.plain (to_datetime [(0:ℚ)] [("unit", "s")])
          (mean (diffs (to_datetime [(0:ℚ)] [("unit", "s")])))) :=
  (window_false_plain [(0:ℚ)] [(1:ℚ)] (some "s") none (0, 0) [("unit", "s")] rfl).1

/-- C10: when both a parsing configuration and an explicit unit are
supplied, the caller's `conv_kw` dict is mutated in place: afterwards its
unit entry reads `time_units`, and whenever the stored unit differed the
caller's object is observably changed. -/
theorem conv_kw_mutated (kw : Dict) (u : String) :
    conv_kw_after (some u) (some kw) = some (dictSet kw "unit" u) ∧
    dictGet (dictSet kw "unit" u) "unit" = some u ∧
    (dictGet kw "unit" ≠ some u → dictSet kw "unit" u ≠ kw) := by
  refine ⟨rfl, dictGet_dictSet kw "unit" u, ?_⟩
  intro hne heq
  exact hne (by rw [← heq, dictGet_dictSet])

/-- Witness for C10: a dict holding nanoseconds is observably changed by
an explicit unit of seconds. -/
theorem conv_kw_mutated_witness :
    conv_kw_after (some "s") (some [("unit", "ns")])
        = some (dictSet [("unit", "ns")] "unit" "s") ∧
    dictSet [("unit", "ns")] "unit" "s" ≠ [("unit", "ns")] := by
  have h := conv_kw_mutated [("unit", "ns")] "s"
  exact ⟨h.1, h.2.2 (by simp [dictGet])⟩

/-- Witness for C7 at a single in-window sample. -/
theorem dt_unwindowed_witness :
    (PTResult.windowed [(0:ℚ)] 0 [(5:ℚ)]).dt
      = mean (diffs (to_datetime [(0:ℚ)] [("unit", "s")])) :=
  dt_unwindowed [(0:ℚ)] [(5:ℚ)] (some "s") none (0, 86400) [("unit", "s")] rfl
    (PTResult.windowed [0] 0 [5])
    (by norm_num [process_timestamps, resolveKw, to_datetime, unitFactor, dictGet, mean,
      diffs, indexer_between_time, secondsOfDay, List.range_succ, List.getD,
      List.filterMap_cons, List.getElem?_cons_zero, List.getElem?_cons_succ, List.getElem?_nil])

/-- With windowing on and `start ≤ end`, the indices selected by
`process_timestamps` are exactly those whose clock time lies in the
CLOSED interval `[start, end]` (the pandas `indexer_between_time`
defaults include both endpoints), and the same index subsequence is
applied to the timestamps and to the co-indexed acceleration. -/
theorem windowing_closed {α : Type} (times : List ℚ) (accel : List α)
    (u : String) (s e : ℚ) (hse : s ≤ e) :
    process_timestamps times accel (some u) none true (s, e)
      = Except.ok (PTResult.windowed
          (((List.range (to_datetime times [("unit", u)]).length).filter (fun i =>
              decide (s ≤ secondsOfDay ((to_datetime times [("unit", u)]).getD i 0)) &&
              decide (secondsOfDay ((to_datetime times [("unit", u)]).getD i 0) ≤ e))).map
            (fun i => (to_datetime times [("unit", u)]).getD i 0))
          (mean (diffs (to_datetime times [("unit", u)])))
          (((List.range (to_datetime times [("unit", u)]).length).filter (fun i =>
              decide (s ≤ secondsOfDay ((to_datetime times [("unit", u)]).getD i 0)) &&
              decide (secondsOfDay ((to_datetime times [("unit", u)]).getD i 0) ≤ e))).filterMap
            (fun i => accel[i]?))) := by
  simp [process_timestamps, resolveKw, indexer_between_time, if_pos hse]

/-- Witness for `windowing_closed` at a single sample on the end bound. -/
theorem windowing_closed_witness :
    process_timestamps [(72000:ℚ)] [(9:ℚ)] (some "s") none true (28800, 72000)
      = Except.ok (PTResult.windowed
          (((List.range (to_datetime [(72000:ℚ)] [("unit", "s")]).length).filter (fun i =>
              decide ((28800:ℚ) ≤ secondsOfDay ((to_datetime [(72000:ℚ)] [("unit", "s")]).getD i 0)) &&
              decide (secondsOfDay ((to_datetime [(72000:ℚ)] [("unit", "s")]).getD i 0) ≤ (72000:ℚ)))).map
            (fun i => (to_datetime [(72000:ℚ)] [("unit", "s")]).getD i 0))
          (mean (diffs (to_datetime [(72000:ℚ)] [("unit", "s")])))
          (((List.range (to_datetime [(72000:ℚ)] [("unit", "s")]).length).filter (fun i =>
              decide ((28800:ℚ) ≤ secondsOfDay ((to_datetime [(72000:ℚ)] [("unit", "s")]).getD i 0)) &&
              decide (secondsOfDay ((to_datetime [(72000:ℚ)] [("unit", "s")]).getD i 0) ≤ (72000:ℚ)))).filterMap
            (fun i => [(9:ℚ)][i]?))) :=
  windowing_closed [(72000:ℚ)] [(9:ℚ)] "s" 28800 72000 (by norm_num)

/-- C6: evaluation at the failing input.  With hours 08:00-20:00, a
sample whose clock time is exactly 20:00 (72000 s) is INCLUDED by the
code - pandas `indexer_between_time` defaults are end-inclusive - while
the half-open selection the spec and the docstring describe excludes
it. -/
theorem windowing_end_inclusive :
    process_timestamps [(28800:ℚ), 72000] [(1:ℚ), 2] (some "s") none true (hm 8 0, hm 20 0)
      = Except.ok (PTResult.windowed [28800, 72000] 43200 [1, 2]) ∧
    indexer_between_time (to_datetime [(28800:ℚ), 72000] [("unit", "s")]) (hm 8 0) (hm 20 0)
      = [0, 1] ∧
    specWindowHalfOpen (to_datetime [(28800:ℚ), 72000] [("unit", "s")]) (hm 8 0) (hm 20 0)
      = [0] := by
  have h1 : secondsOfDay 28800 = 28800 := secondsOfDay_small _ (by norm_num) (by norm_num)
  have h2 : secondsOfDay 72000 = 72000 := secondsOfDay_small _ (by norm_num) (by norm_num)
  refine ⟨?_, ?_, ?_⟩ <;>
    norm_num [process_timestamps, resolveKw, to_datetime, unitFactor, dictGet, mean, diffs,
      indexer_between_time, specWindowHalfOpen, List.range_succ, List.getD, hm, h1, h2,
      List.filterMap_cons, List.getElem?_cons_zero, List.getElem?_cons_succ, List.getElem?_nil]

/-- C9 counterexample: with `window=False` the call returns the plain
2-tuple; no acceleration accompanies the parsed timestamps and the
sampling interval, contradicting the claim that the acceleration is
returned alongside them. -/
theorem no_accel_returned :
    process_timestamps [(0:ℚ), 60] [(1:ℚ), 2] (some "s") none false (hm 8 0, hm 20 0)
      = Except.ok (PTResult.plain [0, 60] 60) ∧
    (PTResult.plain (α := ℚ) [0, 60] 60).returnsAccel = false := by
  refine ⟨?_, rfl⟩
  norm_num [process_timestamps, resolveKw, to_datetime, unitFactor, dictGet, mean, diffs]
